import Mathlib

/-!
Verification development for the `duk` crate (`src/lib.rs`): a Rust wrapper
around the Duktape Javascript engine.  The crate marshals values between the
engine's native value stack and a closed Rust `Value` type, maps native fault
codes to a closed `JsErrorKind` enumeration, and sequences stack operations in
three public operations (`eval_string`, `eval_file`, `call_global`).

The Duktape engine itself is an external collaborator (the `duktape_sys`
FFI crate).  It is modelled here as a stack machine over `DukVal` (the
engine's native value kinds), with the engine's execution of a script
treated as an oracle (`Outcome`): a protected eval/call either succeeds and
pushes one result value, or fails and pushes one error value whose fault
code and defensive string rendering are exposed (`ErrSlot`).

Rust panics (`unwrap`, `assert!`, explicit `panic!`) are modelled as
`Fault.fatal`; recoverable `Err(...)` returns as `Fault.recoverable` /
`OpResult.err`.  The native stack is a `List DukVal` whose head is the
top of the stack (Duktape index -1).
-/

set_option maxHeartbeats 1000000

namespace Duk

/-- Kinds of Javascript/Ecmascript errors (`enum JsErrorKind` in lib.rs).
The Rust variant `Syntax` is named `syntaxError` here. -/
inductive JsErrorKind where
  /-- A thrown error that doesn't inherit from `Error` (e.g. `throw 3.14;`). -/
  | generic
  | unimplemented
  | unsupported
  | internal
  | alloc
  | assertion
  | api
  | uncaught
  | error
  | eval
  | range
  | reference
  | syntaxError
  | type
  | uri
  deriving DecidableEq

/-- A Javascript value with an equivalent Rust mapping (`enum Value` in lib.rs).
`object` carries the `BTreeMap<String, Value>` as an association list in
ascending key order (the map's canonical form). -/
inductive Value where
  | undefined
  | null
  | boolean (b : Bool)
  | number (n : Float)
  | string (s : String)
  | array (elems : List Value)
  | object (props : List (String × Value))
  | bytes (bs : List Nat)

/-- The type of errors that might occur (`enum Error` in lib.rs). -/
inductive Error where
  | js (kind : JsErrorKind) (message : String)
  | unsupportedType (name : String)
  | nonExistent

/-- A Rust-level outcome: either a value returned, a recoverable `Err`, or a
panic (`unwrap` failure, failed `assert!`, or explicit `panic!`). -/
inductive Fault where
  | recoverable (e : Error)
  | fatal (msg : String)

/-- The overall outcome of a public `Context` operation. -/
inductive OpResult where
  | ok (v : Value)
  | err (e : Error)
  | fatal (msg : String)

/-- A native Duktape value as it sits in a stack slot.  Arrays carry
`Option` elements so that a sparse array hole (an absent index property)
is representable.  `pointer` and `lightfunc` are the native kinds with no
`Value` mapping. -/
inductive DukVal where
  | undefined
  | null
  | boolean (b : Bool)
  | number (n : Float)
  | string (s : String)
  | array (elems : List (Option DukVal))
  | object (props : List (String × DukVal))
  | buffer (bs : List Nat)
  | pointer
  | lightfunc

/-- What the engine exposes of a faulted stack slot: its fault code
(`duk_get_error_code`) and its defensive string rendering
(`duk_safe_to_lstring`). -/
structure ErrSlot where
  code : Int
  message : String

/-- The engine's outcome of one protected eval/call: return code 0 with a
result value pushed, or a nonzero return code with an error value pushed. -/
inductive Outcome where
  | ret0 (v : DukVal)
  | retErr (ev : DukVal) (slot : ErrSlot)

/-- Boundary-relevant events performed by `call_global`: pushing the global
object, the named property lookup, pushing one argument (net effect of
`Value::push`), the protected call, and a single-slot pop (`duk_pop`;
`duk_pop_2` is recorded as two pops). -/
inductive Ev where
  | pushGlobalObject
  | getPropString (name : String) (found : Bool)
  | pushArg (v : Value)
  | pcall (nargs : Nat)
  | pop

def Ev.isPop : Ev → Bool
  | Ev.pop => true
  | _ => false

def Ev.isPushArg : Ev → Bool
  | Ev.pushArg _ => true
  | _ => false

def Ev.isPCall : Ev → Bool
  | Ev.pcall _ => true
  | _ => false

/-! ### Duktape 1.x error codes (from `duktape_sys`) -/

def DUK_ERR_NONE : Int := 0
def DUK_ERR_UNIMPLEMENTED_ERROR : Int := 50
def DUK_ERR_UNSUPPORTED_ERROR : Int := 51
def DUK_ERR_INTERNAL_ERROR : Int := 52
def DUK_ERR_ALLOC_ERROR : Int := 53
def DUK_ERR_ASSERTION_ERROR : Int := 54
def DUK_ERR_API_ERROR : Int := 55
def DUK_ERR_UNCAUGHT_ERROR : Int := 56
def DUK_ERR_ERROR : Int := 100
def DUK_ERR_EVAL_ERROR : Int := 101
def DUK_ERR_RANGE_ERROR : Int := 102
def DUK_ERR_REFERENCE_ERROR : Int := 103
def DUK_ERR_SYNTAX_ERROR : Int := 104
def DUK_ERR_TYPE_ERROR : Int := 105
def DUK_ERR_URI_ERROR : Int := 106

/-- The set of fault codes the engine defines (fifteen codes). -/
def dukErrCodes : List Int :=
  [DUK_ERR_NONE, DUK_ERR_UNIMPLEMENTED_ERROR, DUK_ERR_UNSUPPORTED_ERROR,
   DUK_ERR_INTERNAL_ERROR, DUK_ERR_ALLOC_ERROR, DUK_ERR_ASSERTION_ERROR,
   DUK_ERR_API_ERROR, DUK_ERR_UNCAUGHT_ERROR, DUK_ERR_ERROR,
   DUK_ERR_EVAL_ERROR, DUK_ERR_RANGE_ERROR, DUK_ERR_REFERENCE_ERROR,
   DUK_ERR_SYNTAX_ERROR, DUK_ERR_TYPE_ERROR, DUK_ERR_URI_ERROR]

/-- `JsErrorKind::from_raw` (lib.rs lines 336-370): the if-chain mapping a
native fault code to a kind; an unmapped code panics
(`panic!("Unmapped error code {}", e)`). -/
def JsErrorKind.from_raw (e : Int) : Except Fault JsErrorKind :=
  if e = DUK_ERR_NONE then Except.ok JsErrorKind.generic
  else if e = DUK_ERR_UNIMPLEMENTED_ERROR then Except.ok JsErrorKind.unimplemented
  else if e = DUK_ERR_UNSUPPORTED_ERROR then Except.ok JsErrorKind.unsupported
  else if e = DUK_ERR_INTERNAL_ERROR then Except.ok JsErrorKind.internal
  else if e = DUK_ERR_ALLOC_ERROR then Except.ok JsErrorKind.alloc
  else if e = DUK_ERR_ASSERTION_ERROR then Except.ok JsErrorKind.assertion
  else if e = DUK_ERR_API_ERROR then Except.ok JsErrorKind.api
  else if e = DUK_ERR_UNCAUGHT_ERROR then Except.ok JsErrorKind.uncaught
  else if e = DUK_ERR_ERROR then Except.ok JsErrorKind.error
  else if e = DUK_ERR_EVAL_ERROR then Except.ok JsErrorKind.eval
  else if e = DUK_ERR_RANGE_ERROR then Except.ok JsErrorKind.range
  else if e = DUK_ERR_REFERENCE_ERROR then Except.ok JsErrorKind.reference
  else if e = DUK_ERR_SYNTAX_ERROR then Except.ok JsErrorKind.syntaxError
  else if e = DUK_ERR_TYPE_ERROR then Except.ok JsErrorKind.type
  else if e = DUK_ERR_URI_ERROR then Except.ok JsErrorKind.uri
  else Except.error (Fault.fatal ("Unmapped error code " ++ toString e))

/-- `Error::get` (lib.rs lines 319-333): reads the fault code of the slot,
maps it through `JsErrorKind::from_raw`, renders the message via the
engine's defensive stringification, and produces `Error::Js`. -/
def Error.get (slot : ErrSlot) : Except Fault Error :=
  match JsErrorKind.from_raw slot.code with
  | Except.ok k => Except.ok (Error.js k slot.message)
  | Except.error f => Except.error f

/-! ### The `BTreeMap<String, Value>` representation

`Value::Object` carries a `BTreeMap`, represented here as an association
list in strictly ascending key order.  `btreeInsert` is the map's `insert`
(replace on an equal key, keep sorted order); `buildMap` folds the
enumerated pairs into the map exactly as the object branch of `Value::get`
does with `object.insert(key, value)`. -/

def btreeInsert (k : String) (v : Value) : List (String × Value) → List (String × Value)
  | [] => [(k, v)]
  | (k', v') :: rest =>
    if k < k' then (k, v) :: (k', v') :: rest
    else if k = k' then (k, v) :: rest
    else (k', v') :: btreeInsert k v rest

def buildMap (kvs : List (String × Value)) : List (String × Value) :=
  kvs.foldl (fun m kv => btreeInsert kv.1 kv.2 m) []

/-- Key order between adjacent entries of an object's association list. -/
def keysLt (a b : String × Value) : Prop := a.1 < b.1

/-- The representation invariant of a Rust `Value`: every `Object` node's
association list is strictly ascending by key, which is exactly the
invariant the `BTreeMap<String, Value>` type enforces. -/
inductive Value.WF : Value → Prop where
  | undefined : Value.WF Value.undefined
  | null : Value.WF Value.null
  | boolean (b : Bool) : Value.WF (Value.boolean b)
  | number (n : Float) : Value.WF (Value.number n)
  | string (s : String) : Value.WF (Value.string s)
  | bytes (bs : List Nat) : Value.WF (Value.bytes bs)
  | array (elems : List Value) (h : ∀ v ∈ elems, Value.WF v) :
      Value.WF (Value.array elems)
  | object (props : List (String × Value)) (hs : List.Pairwise keysLt props)
      (h : ∀ kv ∈ props, Value.WF kv.2) : Value.WF (Value.object props)

/-! ### `Value::push` (lib.rs lines 272-316)

`Value.toDuk` is the native value that one `push` ultimately leaves on the
stack.  `Value.push` is the stack transformer itself: composites first push
a fresh empty native array/object and then bind each child into it
(`duk_put_prop_index` / `duk_put_prop`), exactly mirroring the transient
push/bind sequence of the source. -/

mutual

def Value.toDuk : Value → DukVal
  | Value.undefined => DukVal.undefined
  | Value.null => DukVal.null
  | Value.boolean b => DukVal.boolean b
  | Value.number n => DukVal.number n
  | Value.string s => DukVal.string s
  | Value.array vs => DukVal.array (toDukArr vs)
  | Value.object kvs => DukVal.object (toDukObj kvs)
  | Value.bytes bs => DukVal.buffer bs

def toDukArr : List Value → List (Option DukVal)
  | [] => []
  | v :: rest => Option.some (Value.toDuk v) :: toDukArr rest

def toDukObj : List (String × Value) → List (String × DukVal)
  | [] => []
  | (k, v) :: rest => (k, Value.toDuk v) :: toDukObj rest

end

/-- `duk_put_prop_index(ctx, -2, i)`: pops the value on top and binds it at
index `i` of the array one below.  The loop in `Value::push` binds indices
in order `0, 1, ...`, so the bind appends at the end of the array. -/
def putPropIndex : List DukVal → List DukVal
  | e :: DukVal.array elems :: rest => DukVal.array (elems ++ [Option.some e]) :: rest
  | st => st

/-- `duk_put_prop(ctx, -3)`: pops the key and value on top and binds them
into the object two below.  Keys come from a `BTreeMap` iteration, so each
key is fresh and the bind appends. -/
def putProp : List DukVal → List DukVal
  | v :: DukVal.string k :: DukVal.object props :: rest =>
      DukVal.object (props ++ [(k, v)]) :: rest
  | st => st

mutual

def Value.push : Value → List DukVal → List DukVal
  | Value.undefined, st => DukVal.undefined :: st
  | Value.null, st => DukVal.null :: st
  | Value.boolean b, st => DukVal.boolean b :: st
  | Value.number n, st => DukVal.number n :: st
  | Value.string s, st => DukVal.string s :: st
  | Value.array vs, st => pushElems vs (DukVal.array [] :: st)
  | Value.object kvs, st => pushPairs kvs (DukVal.object [] :: st)
  | Value.bytes bs, st => DukVal.buffer bs :: st

def pushElems : List Value → List DukVal → List DukVal
  | [], st => st
  | v :: rest, st => pushElems rest (putPropIndex (Value.push v st))

def pushPairs : List (String × Value) → List DukVal → List DukVal
  | [], st => st
  | (k, v) :: rest, st => pushPairs rest (putProp (Value.push v (DukVal.string k :: st)))

end

/-! ### `Value::get` (lib.rs lines 217-270)

All of `get`'s transient traffic happens strictly above the slot being
read, so the conversion of the value in that slot is modelled by `getAt`,
which returns the `Result` together with the number of transient slots
left on the stack when it returns (`0` whenever the code unwinds fully).

The source's early returns (`try!`) skip the cleanup pops:
 * array loop (lines 236-240): per element, `duk_get_prop_index` pushes the
   element; on a conversion error the `try!` returns before the `duk_pop`,
   leaving the element (plus the callee's own leak) on the stack;
 * a sparse-array hole makes `duk_get_prop_index` push `undefined` and
   return 0, failing the `assert!` (a panic), with the pushed slot still
   on the stack;
 * object loop (lines 244-254): `duk_enum` pushes the enumerator and each
   `duk_next` pushes a key and a value; on a conversion error the `try!`
   returns before `duk_pop_2` and before the enumerator's `duk_pop`,
   leaving key, value and enumerator behind. -/

def arrayHoleMsg : String := "assertion failed: 1 == duk_get_prop_index"
def unmappedTypeMsg : String := "Unmapped type"
def enumNonObjectMsg : String := "duk_enum: not object coercible"
def cstringNulMsg : String := "CString::new: NulError"

mutual

def getAt : DukVal → Except Fault Value × Nat
  | DukVal.undefined => (Except.ok Value.undefined, 0)
  | DukVal.null => (Except.ok Value.null, 0)
  | DukVal.boolean b => (Except.ok (Value.boolean b), 0)
  | DukVal.number n => (Except.ok (Value.number n), 0)
  | DukVal.string s => (Except.ok (Value.string s), 0)
  | DukVal.array elems =>
    (match getArrayElems elems with
     | (Except.ok vs, l) => (Except.ok (Value.array vs), l)
     | (Except.error f, l) => (Except.error f, l))
  | DukVal.object props =>
    (match getObjectPairs props with
     | (Except.ok kvs, l) => (Except.ok (Value.object (buildMap kvs)), l)
     | (Except.error f, l) => (Except.error f, l + 1))
  | DukVal.buffer bs => (Except.ok (Value.bytes bs), 0)
  | DukVal.pointer => (Except.error (Fault.recoverable (Error.unsupportedType "pointer")), 0)
  | DukVal.lightfunc => (Except.error (Fault.recoverable (Error.unsupportedType "lightfunc")), 0)

def getArrayElems : List (Option DukVal) → Except Fault (List Value) × Nat
  | [] => (Except.ok [], 0)
  | Option.none :: _ => (Except.error (Fault.fatal arrayHoleMsg), 1)
  | Option.some e :: rest =>
    (match getAt e with
     | (Except.ok v, l) =>
       (match getArrayElems rest with
        | (Except.ok vs, l2) => (Except.ok (v :: vs), l + l2)
        | (Except.error f, l2) => (Except.error f, l + l2))
     | (Except.error f, l) => (Except.error f, l + 1))

def getObjectPairs : List (String × DukVal) → Except Fault (List (String × Value)) × Nat
  | [] => (Except.ok [], 0)
  | (k, dv) :: rest =>
    (match getAt dv with
     | (Except.ok v, l) =>
       (match getObjectPairs rest with
        | (Except.ok kvs, l2) => (Except.ok ((k, v) :: kvs), l + l2)
        | (Except.error f, l2) => (Except.error f, l + l2))
     | (Except.error f, l) => (Except.error f, l + 2))

end

/-- The non-array-object path of `Value::get` (enumerate own properties,
convert, build the sorted map, pop the enumerator). -/
def getObjectAt (props : List (String × DukVal)) : Except Fault Value × Nat :=
  getAt (DukVal.object props)

/-- Duktape stack index resolution: the head of the list is the top of the
stack (index -1); nonnegative indices count from the bottom. -/
def resolveIdx (st : List DukVal) (idx : Int) : Option DukVal :=
  if idx < 0 then st.get? ((-idx).toNat - 1)
  else if idx.toNat < st.length then st.get? (st.length - 1 - idx.toNat)
  else Option.none

/-- Own enumerable properties of a native array value, as `duk_enum` would
enumerate them: the present indices as string keys (holes are absent
properties; `length` is own but non-enumerable). -/
def indexPairs : List (Option DukVal) → Nat → List (String × DukVal)
  | [], _ => []
  | Option.none :: rest, i => indexPairs rest (i + 1)
  | Option.some e :: rest, i => (toString i, e) :: indexPairs rest (i + 1)

/-- `Value::get(ctx, index)` on a whole stack.  The type tag, the array
predicate, the array length and the per-index reads all use `index`
(lines 220-242), but the object branch passes `-1` to `duk_enum`
(line 245), so for a non-array object it enumerates the own properties of
whatever value sits at the top of the stack.  An unhandled type tag
(including `DUK_TYPE_NONE` from an invalid index) hits
`panic!("Unmapped type {}", t)`.  Returns the `Result` and the number of
slots left above the entry depth when the function returns. -/
def Value.get (st : List DukVal) (idx : Int) : Except Fault Value × Nat :=
  match resolveIdx st idx with
  | Option.none => (Except.error (Fault.fatal unmappedTypeMsg), 0)
  | Option.some (DukVal.object _props) =>
    (match st with
     | [] => (Except.error (Fault.fatal enumNonObjectMsg), 0)
     | top :: _ =>
       match top with
       | DukVal.object props2 => getObjectAt props2
       | DukVal.array elems2 => getObjectAt (indexPairs elems2 0)
       | _ => (Except.error (Fault.fatal enumNonObjectMsg), 0))
  | Option.some v => getAt v

/-! ### The `Context` call protocol (lib.rs lines 114-208) -/

/-- Whether a string contains a NUL byte, the condition under which
`ffi::CString::new(..)` returns `Err(NulError)` and the source's
`.unwrap()` panics. -/
def hasNul (s : String) : Bool :=
  s.data.any fun c => c = Char.ofNat 0

/-- `Context::pop_value_or_error` (lib.rs lines 197-207), applied to the
stack as it was before the protected eval/call pushed its single
result/error value.  On `ret == 0` it converts the top value via
`Value::get` and pops it — but the `try!` returns before the `duk_pop`, so
a conversion failure leaves the result value (plus `Value::get`'s own
transient leak, shown as `undefined` placeholder slots) on the stack.  On
`ret != 0` it converts the top value via `Error::get` and pops it. -/
def Context.pop_value_or_error (st : List DukVal) (o : Outcome) :
    OpResult × List DukVal × List Ev :=
  match o with
  | Outcome.ret0 v =>
    (match Value.get (v :: st) (-1) with
     | (Except.ok w, l) =>
       (OpResult.ok w, List.drop 1 (List.replicate l DukVal.undefined ++ v :: st), [Ev.pop])
     | (Except.error (Fault.recoverable e), l) =>
       (OpResult.err e, List.replicate l DukVal.undefined ++ v :: st, [])
     | (Except.error (Fault.fatal m), l) =>
       (OpResult.fatal m, List.replicate l DukVal.undefined ++ v :: st, []))
  | Outcome.retErr ev slot =>
    (match Error.get slot with
     | Except.ok e => (OpResult.err e, st, [Ev.pop])
     | Except.error (Fault.recoverable e) => (OpResult.err e, ev :: st, [])
     | Except.error (Fault.fatal m) => (OpResult.fatal m, ev :: st, []))

/-- `Context::eval_string` (lib.rs lines 148-155): submits the source for a
protected eval (`duk_peval_lstring`, pointer + length, no NUL-termination
involved) and applies `pop_value_or_error` to the outcome. -/
def Context.eval_string (st : List DukVal) (_src : String) (o : Outcome) :
    OpResult × List DukVal × List Ev :=
  Context.pop_value_or_error st o

/-- `Context::eval_file` (lib.rs lines 159-166): converts the path's string
form to a C string (`CString::new(..).unwrap()` — a NUL byte panics), then
protected-evaluates the file and applies `pop_value_or_error`. -/
def Context.eval_file (st : List DukVal) (path : String) (o : Outcome) :
    OpResult × List DukVal × List Ev :=
  if hasNul path then (OpResult.fatal cstringNulMsg, st, [])
  else Context.pop_value_or_error st o

/-- The argument loop of `call_global`: each argument is pushed via
`Value::push` in order. -/
def pushArgs : List Value → List DukVal → List DukVal
  | [], st => st
  | a :: rest, st => pushArgs rest (Value.push a st)

/-- `Context::call_global` (lib.rs lines 170-187).  Pushes the global
object (modelled by its own-property list `global`), converts `name` to a
C string (`unwrap` — a NUL byte panics after the push), and looks `name`
up on the global object:
 * present: pushes each argument, issues `duk_pcall` (which consumes the
   callee and the arguments and pushes the outcome's single value),
   applies `pop_value_or_error`, then `duk_pop`s one slot (meant to be the
   global object);
 * absent: `duk_pop_2` removes the pushed `undefined` lookup marker and
   the global object and the call returns `Err(NonExistent)`. -/
def Context.call_global (st : List DukVal) (global : List (String × DukVal))
    (name : String) (args : List Value) (o : Outcome) :
    OpResult × List DukVal × List Ev :=
  let st1 := DukVal.object global :: st
  if hasNul name then (OpResult.fatal cstringNulMsg, st1, [Ev.pushGlobalObject])
  else
    match List.lookup name global with
    | Option.some fval =>
      let st3 := pushArgs args (fval :: st1)
      match Context.pop_value_or_error (List.drop (args.length + 1) st3) o with
      | (r, st4, evs) =>
        (r, List.drop 1 st4,
         Ev.pushGlobalObject :: Ev.getPropString name true ::
           (args.map Ev.pushArg ++ (Ev.pcall args.length :: (evs ++ [Ev.pop]))))
    | Option.none =>
      (OpResult.err Error.nonExistent, List.drop 2 (DukVal.undefined :: st1),
       [Ev.pushGlobalObject, Ev.getPropString name false, Ev.pop, Ev.pop])

/-! ### Helper lemmas -/

mutual

theorem push_toDuk : ∀ (v : Value) (st : List DukVal),
    Value.push v st = Value.toDuk v :: st
  | Value.undefined, _ => rfl
  | Value.null, _ => rfl
  | Value.boolean _, _ => rfl
  | Value.number _, _ => rfl
  | Value.string _, _ => rfl
  | Value.bytes _, _ => rfl
  | Value.array vs, st => by
      simp only [Value.push, Value.toDuk, pushElems_acc vs [] st, List.nil_append]
  | Value.object kvs, st => by
      simp only [Value.push, Value.toDuk, pushPairs_acc kvs [] st, List.nil_append]

theorem pushElems_acc : ∀ (vs : List Value) (acc : List (Option DukVal)) (st : List DukVal),
    pushElems vs (DukVal.array acc :: st) = DukVal.array (acc ++ toDukArr vs) :: st
  | [], acc, st => by simp [pushElems, toDukArr]
  | v :: rest, acc, st => by
      simp only [pushElems, toDukArr, push_toDuk v, putPropIndex,
        pushElems_acc rest (acc ++ [Option.some (Value.toDuk v)]) st,
        List.append_assoc, List.singleton_append]

theorem pushPairs_acc : ∀ (kvs : List (String × Value)) (acc : List (String × DukVal))
      (st : List DukVal),
    pushPairs kvs (DukVal.object acc :: st) = DukVal.object (acc ++ toDukObj kvs) :: st
  | [], acc, st => by simp [pushPairs, toDukObj]
  | (k, v) :: rest, acc, st => by
      simp only [pushPairs, toDukObj, push_toDuk v, putProp,
        pushPairs_acc rest (acc ++ [(k, Value.toDuk v)]) st,
        List.append_assoc, List.singleton_append]

end

/-- Reading the top of the stack (index -1) converts the top value; in
particular the `duk_enum(ctx, -1, ..)` in the object branch then agrees
with the slot being read. -/
theorem get_neg_one (d : DukVal) (st : List DukVal) : Value.get (d :: st) (-1) = getAt d := by
  have hres : resolveIdx (d :: st) (-1) = Option.some d := by
    simp [resolveIdx]
  cases d <;> simp [Value.get, hres, getObjectAt]

theorem btreeInsert_append (k : String) (v : Value) :
    ∀ (m : List (String × Value)), (∀ p ∈ m, p.1 < k) →
    btreeInsert k v m = m ++ [(k, v)]
  | [], _ => rfl
  | (k', v') :: rest, h => by
      have hk : k' < k := h (k', v') (List.mem_cons_self _ _)
      rw [btreeInsert, if_neg (not_lt_of_gt hk), if_neg (ne_of_gt hk),
        btreeInsert_append k v rest (fun p hp => h p (List.mem_cons_of_mem _ hp))]
      simp

theorem buildMap_aux : ∀ (kvs acc : List (String × Value)),
    List.Pairwise keysLt (acc ++ kvs) →
    List.foldl (fun m kv => btreeInsert kv.1 kv.2 m) acc kvs = acc ++ kvs
  | [], acc, _ => by simp
  | kv :: rest, acc, h => by
      have hlt : ∀ p ∈ acc, p.1 < kv.1 := fun p hp =>
        (List.pairwise_append.mp h).2.2 p hp kv (List.mem_cons_self _ _)
      rw [List.foldl, btreeInsert_append kv.1 kv.2 acc hlt,
        buildMap_aux rest (acc ++ [kv]) (by simpa [List.append_assoc] using h)]
      simp

/-- Folding `BTreeMap::insert` over an already strictly-ascending pair list
rebuilds exactly that list. -/
theorem buildMap_id (kvs : List (String × Value)) (h : List.Pairwise keysLt kvs) :
    buildMap kvs = kvs := by
  simpa [buildMap] using buildMap_aux kvs [] (by simpa using h)

mutual

theorem roundtrip_getAt : ∀ (v : Value), Value.WF v →
    getAt (Value.toDuk v) = (Except.ok v, 0)
  | Value.undefined, _ => rfl
  | Value.null, _ => rfl
  | Value.boolean _, _ => rfl
  | Value.number _, _ => rfl
  | Value.string _, _ => rfl
  | Value.bytes _, _ => rfl
  | Value.array vs, h => by
      cases h with
      | array _ hmem => simp only [Value.toDuk, getAt, roundtrip_arr vs hmem]
  | Value.object kvs, h => by
      cases h with
      | object _ hs hmem =>
        simp only [Value.toDuk, getAt, roundtrip_pairs kvs hmem, buildMap_id kvs hs]

theorem roundtrip_arr : ∀ (vs : List Value), (∀ v ∈ vs, Value.WF v) →
    getArrayElems (toDukArr vs) = (Except.ok vs, 0)
  | [], _ => rfl
  | v :: rest, h => by
      simp only [toDukArr, getArrayElems, roundtrip_getAt v (h v (by simp)),
        roundtrip_arr rest (fun w hw => h w (by simp [hw]))]

theorem roundtrip_pairs : ∀ (kvs : List (String × Value)), (∀ kv ∈ kvs, Value.WF kv.2) →
    getObjectPairs (toDukObj kvs) = (Except.ok kvs, 0)
  | [], _ => rfl
  | (k, v) :: rest, h => by
      simp only [toDukObj, getObjectPairs, roundtrip_getAt v (h (k, v) (by simp)),
        roundtrip_pairs rest (fun kw hkw => h kw (by simp [hkw]))]

end

/-! ### Claim theorems -/

/-- C1: the claim states that every public operation leaves the native
stack at the depth it found it in every outcome, including
`Err(UnsupportedType)`.  The code violates this: when the protected eval
succeeds but the result value has no `Value` mapping (here a pointer
result), the `try!` in `pop_value_or_error` returns before the `duk_pop`,
so `eval_string` returns `Err(UnsupportedType("pointer"))` with the
result value still on the stack — final depth 1, entry depth 0. -/
theorem c1_eval_string_unsupported_breaks_balance :
    Context.eval_string [] "Duktape.Pointer('a')" (Outcome.ret0 DukVal.pointer)
      = (OpResult.err (Error.unsupportedType "pointer"), [DukVal.pointer], ([] : List Ev)) ∧
    ([DukVal.pointer] : List DukVal).length ≠ ([] : List DukVal).length := by
  exact ⟨rfl, by simp⟩

/-- C2: pushing any well-formed `Value` (the `BTreeMap` invariant: every
object node strictly ascending by key, which is forced by the Rust types)
and reading it back through `Value::get` at the top of the stack yields
`Ok` of exactly that value with the transient stack traffic fully
unwound; object keys come back in ascending order, which for a `BTreeMap`
value is its canonical (and only) order. -/
theorem c2_push_get_roundtrip (v : Value) (st : List DukVal) (h : Value.WF v) :
    Value.get (Value.push v st) (-1) = (Except.ok v, 0) := by
  rw [push_toDuk, get_neg_one, roundtrip_getAt v h]

/-- Witness for C2 at a concrete nested value. -/
theorem c2_push_get_roundtrip_witness :
    Value.get
      (Value.push
        (Value.object
          [("a", Value.string "x"),
           ("b", Value.array [Value.boolean true, Value.null]),
           ("c", Value.bytes [0, 255])]) [])
      (-1)
      = (Except.ok
          (Value.object
            [("a", Value.string "x"),
             ("b", Value.array [Value.boolean true, Value.null]),
             ("c", Value.bytes [0, 255])]), 0) := by
  refine c2_push_get_roundtrip _ [] ?_
  refine Value.WF.object _ ?_ ?_
  · simp only [keysLt, List.pairwise_cons, List.mem_cons, List.not_mem_nil]
    simp [String.lt_iff_toList_lt]
    decide
  · intro kv hkv
    simp only [List.mem_cons, List.not_mem_nil, or_false] at hkv
    rcases hkv with h | h | h <;> subst h
    · exact Value.WF.string _
    · refine Value.WF.array _ ?_
      intro w hw
      simp only [List.mem_cons, List.not_mem_nil, or_false] at hw
      rcases hw with h | h <;> subst h
      · exact Value.WF.boolean _
      · exact Value.WF.null
    · exact Value.WF.bytes _

/-- C3 counterexample: the claim quantifies over every name, but for a name
containing a NUL byte (absent from the global object like any other
missing name), `CString::new(name).unwrap()` panics before the property
lookup, so `call_global` does not return `Err(NonExistent)` and does not
restore the stack. -/
theorem c3_call_global_nul_name_counterexample :
    (Context.call_global [] [] "\x00" [] (Outcome.ret0 DukVal.undefined)).1
      = OpResult.fatal cstringNulMsg ∧
    Context.call_global [] [] "\x00" [] (Outcome.ret0 DukVal.undefined)
      ≠ (OpResult.err Error.nonExistent, ([] : List DukVal),
         [Ev.pushGlobalObject, Ev.getPropString "\x00" false, Ev.pop, Ev.pop]) := by
  constructor
  · rfl
  · intro h
    exact OpResult.noConfusion (congrArg Prod.fst h)

/-- C3 (amended): for every name *free of NUL bytes* and every argument
list, if the global object has no property with that name then
`call_global` returns `Err(NonExistent)`, performs exactly two pops (the
lookup-failure marker and the global object), never pushes any argument,
never issues the protected call, and leaves the stack as it found it —
independently of the argument list and of the engine oracle. -/
theorem c3_call_global_absent (st : List DukVal) (global : List (String × DukVal))
    (name : String) (args : List Value) (o : Outcome)
    (h1 : hasNul name = false) (h2 : List.lookup name global = Option.none) :
    Context.call_global st global name args o
      = (OpResult.err Error.nonExistent, st,
         [Ev.pushGlobalObject, Ev.getPropString name false, Ev.pop, Ev.pop]) ∧
    (([Ev.pushGlobalObject, Ev.getPropString name false, Ev.pop, Ev.pop].filter
        Ev.isPop).length = 2) ∧
    (∀ ev ∈ [Ev.pushGlobalObject, Ev.getPropString name false, Ev.pop, Ev.pop],
        Ev.isPushArg ev = false ∧ Ev.isPCall ev = false) := by
  refine ⟨?_, by simp [Ev.isPop], ?_⟩
  · simp [Context.call_global, h1, h2]
  · intro ev hev
    simp only [List.mem_cons, List.not_mem_nil, or_false] at hev
    rcases hev with h | h | h | h <;> subst h <;>
      exact ⟨rfl, rfl⟩

/-- Witness for the amended C3 at a concrete absent name. -/
theorem c3_call_global_absent_witness :
    Context.call_global [] [("bar", DukVal.undefined)] "foo" [] (Outcome.ret0 DukVal.undefined)
      = (OpResult.err Error.nonExistent, ([] : List DukVal),
         [Ev.pushGlobalObject, Ev.getPropString "foo" false, Ev.pop, Ev.pop]) ∧
    (([Ev.pushGlobalObject, Ev.getPropString "foo" false, Ev.pop, Ev.pop].filter
        Ev.isPop).length = 2) ∧
    (∀ ev ∈ [Ev.pushGlobalObject, Ev.getPropString "foo" false, Ev.pop, Ev.pop],
        Ev.isPushArg ev = false ∧ Ev.isPCall ev = false) :=
  c3_call_global_absent [] [("bar", DukVal.undefined)] "foo" [] (Outcome.ret0 DukVal.undefined)
    (by decide) (by rfl)

/-- C4: the fault-code mapping is total and exhaustive over the fifteen
codes the engine defines — each maps to its corresponding kind, and in
particular code `DUK_ERR_NONE` (a thrown value not inheriting from
`Error`) maps to `Generic` — while any code outside that set panics
(`panic!("Unmapped error code {}", e)`) and is never returned as a
recoverable value. -/
theorem c4_from_raw_total :
    (JsErrorKind.from_raw DUK_ERR_NONE = Except.ok JsErrorKind.generic) ∧
    (JsErrorKind.from_raw DUK_ERR_UNIMPLEMENTED_ERROR = Except.ok JsErrorKind.unimplemented) ∧
    (JsErrorKind.from_raw DUK_ERR_UNSUPPORTED_ERROR = Except.ok JsErrorKind.unsupported) ∧
    (JsErrorKind.from_raw DUK_ERR_INTERNAL_ERROR = Except.ok JsErrorKind.internal) ∧
    (JsErrorKind.from_raw DUK_ERR_ALLOC_ERROR = Except.ok JsErrorKind.alloc) ∧
    (JsErrorKind.from_raw DUK_ERR_ASSERTION_ERROR = Except.ok JsErrorKind.assertion) ∧
    (JsErrorKind.from_raw DUK_ERR_API_ERROR = Except.ok JsErrorKind.api) ∧
    (JsErrorKind.from_raw DUK_ERR_UNCAUGHT_ERROR = Except.ok JsErrorKind.uncaught) ∧
    (JsErrorKind.from_raw DUK_ERR_ERROR = Except.ok JsErrorKind.error) ∧
    (JsErrorKind.from_raw DUK_ERR_EVAL_ERROR = Except.ok JsErrorKind.eval) ∧
    (JsErrorKind.from_raw DUK_ERR_RANGE_ERROR = Except.ok JsErrorKind.range) ∧
    (JsErrorKind.from_raw DUK_ERR_REFERENCE_ERROR = Except.ok JsErrorKind.reference) ∧
    (JsErrorKind.from_raw DUK_ERR_SYNTAX_ERROR = Except.ok JsErrorKind.syntaxError) ∧
    (JsErrorKind.from_raw DUK_ERR_TYPE_ERROR = Except.ok JsErrorKind.type) ∧
    (JsErrorKind.from_raw DUK_ERR_URI_ERROR = Except.ok JsErrorKind.uri) ∧
    (∀ e : Int, e ∉ dukErrCodes →
      JsErrorKind.from_raw e
        = Except.error (Fault.fatal ("Unmapped error code " ++ toString e))) := by
  refine ⟨rfl, rfl, rfl, rfl, rfl, rfl, rfl, rfl, rfl, rfl, rfl, rfl, rfl, rfl, rfl, ?_⟩
  intro e he
  simp only [dukErrCodes, DUK_ERR_NONE, DUK_ERR_UNIMPLEMENTED_ERROR,
    DUK_ERR_UNSUPPORTED_ERROR, DUK_ERR_INTERNAL_ERROR, DUK_ERR_ALLOC_ERROR,
    DUK_ERR_ASSERTION_ERROR, DUK_ERR_API_ERROR, DUK_ERR_UNCAUGHT_ERROR,
    DUK_ERR_ERROR, DUK_ERR_EVAL_ERROR, DUK_ERR_RANGE_ERROR,
    DUK_ERR_REFERENCE_ERROR, DUK_ERR_SYNTAX_ERROR, DUK_ERR_TYPE_ERROR,
    DUK_ERR_URI_ERROR, List.mem_cons, List.not_mem_nil, or_false, not_or] at he
  obtain ⟨h0, h50, h51, h52, h53, h54, h55, h56, h100, h101, h102, h103, h104, h105, h106⟩ := he
  simp [JsErrorKind.from_raw, DUK_ERR_NONE, DUK_ERR_UNIMPLEMENTED_ERROR,
    DUK_ERR_UNSUPPORTED_ERROR, DUK_ERR_INTERNAL_ERROR, DUK_ERR_ALLOC_ERROR,
    DUK_ERR_ASSERTION_ERROR, DUK_ERR_API_ERROR, DUK_ERR_UNCAUGHT_ERROR,
    DUK_ERR_ERROR, DUK_ERR_EVAL_ERROR, DUK_ERR_RANGE_ERROR,
    DUK_ERR_REFERENCE_ERROR, DUK_ERR_SYNTAX_ERROR, DUK_ERR_TYPE_ERROR,
    DUK_ERR_URI_ERROR, h0, h50, h51, h52, h53, h54, h55, h56, h100, h101,
    h102, h103, h104, h105, h106]

/-- Witness for C4's outside-the-set clause at the concrete code 57. -/
theorem c4_from_raw_total_witness :
    ((57 : Int) ∉ dukErrCodes) ∧
    JsErrorKind.from_raw 57
      = Except.error (Fault.fatal ("Unmapped error code " ++ toString (57 : Int))) :=
  ⟨by decide, c4_from_raw_total.2.2.2.2.2.2.2.2.2.2.2.2.2.2.2 57 (by decide)⟩

/-- C5: the claim states that `Value::get` fully unwinds its transient
child pushes in every outcome, including `Err(UnsupportedType)` for a
nested pointer/lightfunc element.  The code violates this: reading an
array whose element is a pointer pushes the element, fails to convert it,
and the `try!` returns before the per-element `duk_pop`, leaving one slot
above the entry depth. -/
theorem c5_get_leaks_on_nested_unsupported :
    Value.get [DukVal.array [Option.some DukVal.pointer]] (-1)
      = (Except.error (Fault.recoverable (Error.unsupportedType "pointer")), 1) := rfl

/-- C6: `Value::push` of any of the eight `Value` variants leaves exactly
one new value (the native image of the pushed value) on top of the stack
and makes no other net change: the final stack is the original stack with
one value consed on, so its depth is the original depth plus one. -/
theorem c6_push_net_one (v : Value) (st : List DukVal) :
    Value.push v st = Value.toDuk v :: st ∧
    (Value.push v st).length = st.length + 1 := by
  refine ⟨push_toDuk v st, ?_⟩
  rw [push_toDuk v st]
  simp

/-- C7: the claim states that `Value::get(stack, index)` produces the value
stored at `index` for every valid index, enumerating that object's own
properties.  The code violates this for a non-array object at a non-top
index: the type tag is read at `index` (bottom slot, the object with key
"y") but `duk_enum(ctx, -1, ..)` enumerates the top of the stack (the
object with key "x"), so `get` returns the top object's conversion. -/
theorem c7_get_enumerates_top_not_index :
    Value.get
      [DukVal.object [("x", DukVal.boolean true)],
       DukVal.object [("y", DukVal.boolean false)]] 0
      = (Except.ok (Value.object [("x", Value.boolean true)]), 0) ∧
    resolveIdx
      [DukVal.object [("x", DukVal.boolean true)],
       DukVal.object [("y", DukVal.boolean false)]] 0
      = Option.some (DukVal.object [("y", DukVal.boolean false)]) ∧
    Value.object [("x", Value.boolean true)] ≠ Value.object [("y", Value.boolean false)] := by
  refine ⟨rfl, rfl, ?_⟩
  simp

/-- C8: `Error::get` always produces the `Error::Js` variant: whenever it
returns an error value (rather than panicking on an unmapped code), that
value is `Js {kind, message}` — never `UnsupportedType` and never
`NonExistent`. -/
theorem c8_error_get_always_js (slot : ErrSlot) (e : Error)
    (h : Error.get slot = Except.ok e) : ∃ k m, e = Error.js k m := by
  unfold Error.get at h
  cases hfr : JsErrorKind.from_raw slot.code with
  | ok k =>
    rw [hfr] at h
    injection h with h'
    exact ⟨k, slot.message, h'.symm⟩
  | error f =>
    rw [hfr] at h
    cases h

/-- Witness for C8 at a concrete faulted slot (a TypeError). -/
theorem c8_error_get_always_js_witness :
    ∃ k m, Error.js JsErrorKind.type "TypeError: undefined not callable" = Error.js k m :=
  c8_error_get_always_js ⟨DUK_ERR_TYPE_ERROR, "TypeError: undefined not callable"⟩
    (Error.js JsErrorKind.type "TypeError: undefined not callable") rfl

/-- C9: when `Value::get` reads an array and reaches an absent index (a
sparse-array hole) after all earlier indices converted successfully, the
`assert!(1 == duk_get_prop_index(..))` fails — a panic — rather than the
operation returning a recoverable `Error` or substituting `Undefined` for
the missing element. -/
theorem c9_array_hole_asserts (st : List DukVal) (pre rest : List (Option DukVal))
    (vs : List Value) (h : getArrayElems pre = (Except.ok vs, 0)) :
    Value.get (DukVal.array (pre ++ Option.none :: rest) :: st) (-1)
      = (Except.error (Fault.fatal arrayHoleMsg), 1) := by
  rw [get_neg_one]
  have key : ∀ (pre : List (Option DukVal)) (vs : List Value),
      getArrayElems pre = (Except.ok vs, 0) →
      getArrayElems (pre ++ Option.none :: rest)
        = (Except.error (Fault.fatal arrayHoleMsg), 1) := by
    intro pre
    induction pre with
    | nil => intro vs _; simp [getArrayElems]
    | cons hd tl ih =>
      intro vs h
      cases hd with
      | none =>
        simp only [getArrayElems] at h
        exact absurd h (by simp)
      | some e =>
        rcases hge : getAt e with ⟨r, l⟩
        cases r with
        | error f =>
          simp only [getArrayElems, hge] at h
          exact absurd h (by simp)
        | ok v =>
          rcases hta : getArrayElems tl with ⟨r2, l2⟩
          cases r2 with
          | error f =>
            simp only [getArrayElems, hge, hta] at h
            exact absurd h (by simp)
          | ok vs2 =>
            simp only [getArrayElems, hge, hta, Prod.mk.injEq, Except.ok.injEq] at h
            have hl2 : l2 = 0 := by omega
            have hl : l = 0 := by omega
            subst hl hl2
            rw [List.cons_append]
            simp only [getArrayElems, hge, ih vs2 hta]
  simp only [getAt, key pre vs h]

/-- Witness for C9: the one-element sparse array `[<hole>]`. -/
theorem c9_array_hole_asserts_witness :
    Value.get [DukVal.array [Option.none]] (-1)
      = (Except.error (Fault.fatal arrayHoleMsg), 1) :=
  c9_array_hole_asserts [] [] [] [] rfl

/-- C10: `call_global` panics (`CString::new(name).unwrap()`) whenever the
function name contains a NUL byte, and `eval_file` panics whenever the
path's string form contains a NUL byte; in neither case is a recoverable
`Error` value returned. -/
theorem c10_nul_byte_panics (st st2 : List DukVal) (global : List (String × DukVal))
    (name path : String) (args : List Value) (o o2 : Outcome)
    (h1 : hasNul name = true) (h2 : hasNul path = true) :
    (Context.call_global st global name args o).1 = OpResult.fatal cstringNulMsg ∧
    (Context.eval_file st2 path o2).1 = OpResult.fatal cstringNulMsg ∧
    (∀ e : Error, (Context.call_global st global name args o).1 ≠ OpResult.err e) ∧
    (∀ e : Error, (Context.eval_file st2 path o2).1 ≠ OpResult.err e) := by
  have hc : (Context.call_global st global name args o).1 = OpResult.fatal cstringNulMsg := by
    simp [Context.call_global, h1]
  have hf : (Context.eval_file st2 path o2).1 = OpResult.fatal cstringNulMsg := by
    simp [Context.eval_file, h2]
  refine ⟨hc, hf, ?_, ?_⟩
  · intro e
    rw [hc]
    intro hcontra
    exact OpResult.noConfusion hcontra
  · intro e
    rw [hf]
    intro hcontra
    exact OpResult.noConfusion hcontra

/-- Witness for C10 at concrete NUL-containing inputs. -/
theorem c10_nul_byte_panics_witness :
    (Context.call_global [] [] "a\x00b" [] (Outcome.ret0 DukVal.null)).1
      = OpResult.fatal cstringNulMsg ∧
    (Context.eval_file [] "p\x00q" (Outcome.ret0 DukVal.null)).1
      = OpResult.fatal cstringNulMsg ∧
    (∀ e : Error,
      (Context.call_global [] [] "a\x00b" [] (Outcome.ret0 DukVal.null)).1
        ≠ OpResult.err e) ∧
    (∀ e : Error,
      (Context.eval_file [] "p\x00q" (Outcome.ret0 DukVal.null)).1
        ≠ OpResult.err e) :=
  c10_nul_byte_panics [] [] [] "a\x00b" "p\x00q" []
    (Outcome.ret0 DukVal.null) (Outcome.ret0 DukVal.null) rfl rfl

end Duk
